import Mathlib

/-!
Shallow embedding of the StampApp server (src/unnamed/part_000, with
src/server.js as an older variant of the same handlers).

The SQLite database is modelled as lists of rows kept in insertion order,
with the AUTOINCREMENT counters made explicit.  ISO-8601 `createdAt` strings
are modelled as `Nat` (SQLite compares the TEXT column lexicographically,
which on well-formed ISO strings is the chronological order; only that total
order matters here).  Each Express handler becomes a function from the store
and the request fields to the new store and a response; JavaScript
truthiness on strings is translated as comparison with `""`.
-/

namespace StampApp

abbrev UserId := String

/-- Row of `users (id TEXT PRIMARY KEY, stamps INTEGER, isAdmin INTEGER)`. -/
structure User where
  id : UserId
  stamps : Int
  isAdmin : Bool
deriving Repr, DecidableEq

/-- Row of `stamp_events (id INTEGER PRIMARY KEY AUTOINCREMENT, userId, createdAt, reason, eventType)`. -/
structure StampEvent where
  id : Nat
  userId : UserId
  createdAt : Nat
  reason : String
  eventType : String
deriving Repr, DecidableEq

/-- Row of `user_profiles (userId TEXT PRIMARY KEY, username, mailAddress, description, job, hobbies, updatedAt)`. -/
structure Profile where
  userId : UserId
  username : String
  mailAddress : String
  description : String
  job : String
  hobbies : String
  updatedAt : Nat
deriving Repr, DecidableEq

/-- Row of `auth_identities (id INTEGER PRIMARY KEY AUTOINCREMENT, userId, provider, providerKey, createdAt)`. -/
structure AuthIdentity where
  id : Nat
  userId : UserId
  provider : String
  providerKey : String
  createdAt : Nat
deriving Repr, DecidableEq

/-- The whole SQLite database.  Row lists are in insertion (rowid) order;
`nextEventId` / `nextIdentityId` are the AUTOINCREMENT counters. -/
structure Store where
  users : List User
  events : List StampEvent
  profiles : List Profile
  identities : List AuthIdentity
  nextEventId : Nat
  nextIdentityId : Nat
deriving Repr, DecidableEq

/-- The freshly created database (all tables empty). -/
def emptyStore : Store :=
  { users := [], events := [], profiles := [], identities := []
    nextEventId := 0, nextIdentityId := 0 }

/-- JavaScript `String.prototype.trim()`: drop leading and trailing
whitespace. -/
def jsTrim (s : String) : String :=
  ⟨((s.data.dropWhile Char.isWhitespace).reverse.dropWhile Char.isWhitespace).reverse⟩

/-- JavaScript `String.prototype.toLowerCase()` on the characters that occur
here (ASCII case mapping). -/
def jsToLower (s : String) : String := ⟨s.data.map Char.toLower⟩

/-- `const normalizeMail = (value) => (value || "").trim().toLowerCase()`. -/
def normalizeMail (value : String) : String := jsToLower (jsTrim value)

/-- `const normalizeUsername = (value) => (value || "").trim()`. -/
def normalizeUsername (value : String) : String := jsTrim value

/-- `const clampStamps = (stamps) => Math.min(13, Math.max(0, stamps))`. -/
def clampStamps (stamps : Int) : Int := min 13 (max 0 stamps)

/-- `SELECT ... FROM users WHERE id = ?` (primary-key lookup). -/
def findUserRow (s : Store) (id : UserId) : Option User :=
  s.users.find? (fun u => u.id == id)

/-- `getUserById`: primary-key lookup, clamping `stamps` at the read boundary. -/
def getUserById (s : Store) (id : UserId) : Option User :=
  match findUserRow s id with
  | none => none
  | some u => some { u with stamps := clampStamps u.stamps }

/-- `SELECT ... FROM user_profiles WHERE userId = ?`. -/
def getProfileByUserId (s : Store) (userId : UserId) : Option Profile :=
  s.profiles.find? (fun p => p.userId == userId)

/-- `SELECT ... FROM auth_identities WHERE provider = ? AND providerKey = ?`. -/
def getAuthIdentity (s : Store) (provider providerKey : String) : Option AuthIdentity :=
  s.identities.find? (fun i => i.provider == provider && i.providerKey == providerKey)

/-- `INSERT OR IGNORE INTO users (id, stamps) VALUES (?, 0)` (isAdmin defaults to 0). -/
def insertUserIfAbsent (s : Store) (id : UserId) : Store :=
  match findUserRow s id with
  | some _ => s
  | none => { s with users := s.users ++ [{ id := id, stamps := 0, isAdmin := false }] }

/-- One row's update under
`UPDATE users SET stamps = CASE WHEN stamps < 13 THEN stamps + 1 ELSE 13 END WHERE id = ?`. -/
def stepGrant (userId : UserId) (u : User) : User :=
  if u.id == userId then
    { u with stamps := if u.stamps < 13 then u.stamps + 1 else 13 }
  else u

/-- The write sequence of `POST /api/admin/stamp` inside `db.serialize`, with the
`db.get` read-back made fallible: the handler runs `INSERT OR IGNORE`, then the
`UPDATE`, then reads the row back; if that read errors it answers 500 and
returns without inserting the stamp event.  `selectFails` injects that store
error.  Returns the final store, the reported stamp count, and whether the
call reported success. -/
def grantStampFallible (s : Store) (userId : UserId) (reason : String) (now : Nat)
    (selectFails : Bool) : Store × Int × Bool :=
  let s1 := insertUserIfAbsent s userId
  let s2 := { s1 with users := s1.users.map (stepGrant userId) }
  if selectFails then (s2, 0, false)
  else
    match findUserRow s2 userId with
    | none => (s2, 0, false)
    | some u =>
      let ev : StampEvent :=
        { id := s2.nextEventId, userId := userId, createdAt := now
          reason := reason, eventType := "ADD" }
      ({ s2 with events := s2.events ++ [ev], nextEventId := s2.nextEventId + 1 },
       clampStamps u.stamps, true)

/-- `POST /api/admin/stamp` write sequence on the path where every store
operation succeeds. -/
def grantStamp (s : Store) (userId : UserId) (reason : String) (now : Nat) : Store × Int :=
  let r := grantStampFallible s userId reason now false
  (r.1, r.2.1)

/-- One row's update under `UPDATE users SET stamps = 0 WHERE id = ?`. -/
def stepReset (userId : UserId) (u : User) : User :=
  if u.id == userId then { u with stamps := 0 } else u

/-- The write sequence of `POST /api/reset` inside `db.serialize`:
`UPDATE users SET stamps = 0 WHERE id = ?` then the RESET event insert. -/
def resetStamp (s : Store) (userId : UserId) (now : Nat) : Store :=
  let s1 := { s with users := s.users.map (stepReset userId) }
  let ev : StampEvent :=
    { id := s1.nextEventId, userId := userId, createdAt := now
      reason := "user_reset", eventType := "RESET" }
  { s1 with events := s1.events ++ [ev], nextEventId := s1.nextEventId + 1 }

/-- Response of `POST /api/admin/stamp` (status 500 / 401 / 400 / 200). -/
inductive AdminResp where
  | configError
  | unauthorized
  | badRequest
  | ok (stamps : Int)
deriving Repr, DecidableEq

/-- `POST /api/admin/stamp` behind `adminGuard`: the guard answers 500 when
`ADMIN_TOKEN` is unset (empty), 401 when the `x-admin-token` header differs
from it; the handler answers 400 when `req.body.userId` is falsy, and
otherwise runs the grant write sequence with reason `admin_grant`.  Returns
the store after the call and the response. -/
def apiAdminStamp (adminToken suppliedToken : String) (s : Store) (userId : String)
    (now : Nat) : Store × AdminResp :=
  if adminToken = "" then (s, .configError)
  else if suppliedToken ≠ adminToken then (s, .unauthorized)
  else if userId = "" then (s, .badRequest)
  else
    let r := grantStamp s userId "admin_grant" now
    (r.1, .ok r.2)

/-- Response of `POST /api/reset` (status 403 / 404 / 200). -/
inductive ResetResp where
  | userMismatch
  | notFound
  | ok (stamps : Int)
deriving Repr, DecidableEq

/-- `POST /api/reset`: rejects a body `userId` that is present (truthy) and
differs from the session's; answers 404 when the session user has no row;
otherwise runs the reset write sequence.  `bodyUserId = ""` stands for an
absent/falsy body field. -/
def apiReset (s : Store) (sessionUserId : UserId) (bodyUserId : String)
    (now : Nat) : Store × ResetResp :=
  if bodyUserId ≠ "" ∧ bodyUserId ≠ sessionUserId then (s, .userMismatch)
  else
    match getUserById s sessionUserId with
    | none => (s, .notFound)
    | some _ => (resetStamp s sessionUserId now, .ok 0)

/-- Response of `POST /api/login` (redirect `not_found` / `username_mismatch` / success). -/
inductive LoginResp where
  | notFound
  | usernameMismatch
  | ok (userId : UserId)
deriving Repr, DecidableEq

/-- `POST /api/login`: normalizes both inputs; empty username or mail redirects
to `not_found`, as does a missing local identity for the normalized mail; a
stored profile whose normalized username differs redirects to
`username_mismatch`; otherwise the session is bound to the mapped user. -/
def apiLogin (s : Store) (usernameInput mailInput : String) : LoginResp :=
  let username := normalizeUsername usernameInput
  let mailAddress := normalizeMail mailInput
  if username = "" ∨ mailAddress = "" then .notFound
  else
    match getAuthIdentity s "local" mailAddress with
    | none => .notFound
    | some identity =>
      match getProfileByUserId s identity.userId with
      | some profile =>
        if normalizeUsername profile.username ≠ username then .usernameMismatch
        else .ok identity.userId
      | none => .ok identity.userId

/-- Response of `POST /api/signup` (status 400 / 409 / success). -/
inductive SignupResp where
  | validationError
  | conflict
  | ok (userId : UserId)
deriving Repr, DecidableEq

/-- `POST /api/signup`: requires a non-empty normalized username and mail
(400), answers 409 when a local identity already exists for the normalized
mail, and otherwise inserts the user row, the profile row and the local
auth identity keyed by the normalized mail.  `freshId` stands for the
`crypto.randomUUID()` result. -/
def apiSignup (s : Store) (usernameInput mailInput description job hobbies : String)
    (freshId : UserId) (now : Nat) : Store × SignupResp :=
  let username := normalizeUsername usernameInput
  let mailAddress := normalizeMail mailInput
  if username = "" ∨ mailAddress = "" then (s, .validationError)
  else
    match getAuthIdentity s "local" mailAddress with
    | some _ => (s, .conflict)
    | none =>
      let newUser : User := { id := freshId, stamps := 0, isAdmin := false }
      let newProfile : Profile :=
        { userId := freshId, username := username, mailAddress := mailAddress
          description := description, job := job, hobbies := hobbies, updatedAt := now }
      let newIdentity : AuthIdentity :=
        { id := s.nextIdentityId, userId := freshId, provider := "local"
          providerKey := mailAddress, createdAt := now }
      let s3 := { s with
        users := s.users ++ [newUser],
        profiles := s.profiles ++ [newProfile],
        identities := s.identities ++ [newIdentity],
        nextIdentityId := s.nextIdentityId + 1 }
      (s3, .ok freshId)

/-- Response of `POST /api/profile` (400 validation / 400 mail / 200). -/
inductive ProfileResp where
  | validationError
  | mailImmutable
  | ok
deriving Repr, DecidableEq

/-- `POST /api/profile`: requires a non-empty normalized username; when a
profile row exists with a non-empty stored mail and the normalized supplied
mail is non-empty and differs from the normalized stored mail, answers the
mail-immutable error; otherwise updates the existing row (mail column
untouched) or inserts a fresh row carrying the supplied mail. -/
def apiUpdateProfile (s : Store) (sessionUserId : UserId)
    (usernameInput mailInput description job hobbies : String) (now : Nat) :
    Store × ProfileResp :=
  let profile := getProfileByUserId s sessionUserId
  let username := normalizeUsername usernameInput
  let mailAddressInput := normalizeMail mailInput
  if username = "" then (s, .validationError)
  else
    match profile with
    | some p =>
      if p.mailAddress ≠ "" ∧ mailAddressInput ≠ "" ∧
          normalizeMail p.mailAddress ≠ mailAddressInput then
        (s, .mailImmutable)
      else
        ({ s with profiles := s.profiles.map (fun (q : Profile) =>
            if q.userId == sessionUserId then
              { q with username := username, description := description
                       job := job, hobbies := hobbies, updatedAt := now }
            else q) }, .ok)
    | none =>
      ({ s with profiles := s.profiles ++
          [{ userId := sessionUserId, username := username
             mailAddress := mailAddressInput, description := description
             job := job, hobbies := hobbies, updatedAt := now }] }, .ok)

/-- `SELECT eventType, reason, createdAt FROM stamp_events WHERE userId = ?
ORDER BY createdAt DESC LIMIT ?` — the admissible results of the query.
The statement names no secondary sort key and SQLite leaves the relative
order of rows with equal `ORDER BY` keys unspecified, so the query is
modelled as a relation: a result is the `limit`-prefix of some arrangement
of the user's events that is consistent with descending `createdAt`. -/
def IsRecentEventsResult (s : Store) (userId : UserId) (limit : Nat)
    (res : List StampEvent) : Prop :=
  ∃ arranged : List StampEvent,
    arranged.Perm (s.events.filter (fun e => e.userId == userId)) ∧
    arranged.Pairwise (fun a b => b.createdAt ≤ a.createdAt) ∧
    res = arranged.take limit

/-- `SELECT MAX(createdAt) FROM stamp_events WHERE userId = ?`. -/
def lastUpdatedAt (s : Store) (userId : UserId) : Option Nat :=
  (s.events.filter (fun e => e.userId == userId)).foldl
    (fun acc e => match acc with
      | none => some e.createdAt
      | some t => some (max t e.createdAt)) none

/-- A ledger mutation as issued through the two write endpoints. -/
inductive LedgerOp where
  | grant (userId : UserId) (now : Nat)
  | reset (userId : UserId) (bodyUserId : String) (now : Nat)
deriving Repr, DecidableEq

/-- The store reached after one write endpoint call (the admin-stamp body
after its guards, and the reset body with its user checks). -/
def applyOp (s : Store) : LedgerOp → Store
  | .grant userId now => (grantStamp s userId "admin_grant" now).1
  | .reset userId bodyUserId now => (apiReset s userId bodyUserId now).1

/-- The store reached after a sequence of write endpoint calls. -/
def applyOps (s : Store) (ops : List LedgerOp) : Store :=
  ops.foldl applyOp s

/-- Every stored stamp counter lies in `[0, 13]`. -/
def StampInv (s : Store) : Prop :=
  ∀ u ∈ s.users, 0 ≤ u.stamps ∧ u.stamps ≤ 13

instance : DecidablePred StampInv := fun s => by
  unfold StampInv; infer_instance

/-- `n` consecutive admin grants for the same user (the `now` timestamps
increase with the call index). -/
def grantTimes (n : Nat) (userId : UserId) (s : Store) : Store :=
  (List.range n).foldl (fun t k => (grantStamp t userId "admin_grant" k).1) s

/-! ### Basic lemmas about the row-level steps -/

theorem clampStamps_nonneg (n : Int) : 0 ≤ clampStamps n :=
  le_min (by norm_num) (le_max_left 0 n)

theorem clampStamps_le (n : Int) : clampStamps n ≤ 13 :=
  min_le_left _ _

theorem stepGrant_id (userId : UserId) (u : User) : (stepGrant userId u).id = u.id := by
  unfold stepGrant; split <;> rfl

theorem stepReset_id (userId : UserId) (u : User) : (stepReset userId u).id = u.id := by
  unfold stepReset; split <;> rfl

theorem stepGrant_bounds (userId : UserId) (u : User) (h0 : 0 ≤ u.stamps)
    (h13 : u.stamps ≤ 13) :
    0 ≤ (stepGrant userId u).stamps ∧ (stepGrant userId u).stamps ≤ 13 := by
  unfold stepGrant
  split
  · dsimp only
    split <;> omega
  · exact ⟨h0, h13⟩

theorem stepReset_bounds (userId : UserId) (u : User) (h0 : 0 ≤ u.stamps)
    (h13 : u.stamps ≤ 13) :
    0 ≤ (stepReset userId u).stamps ∧ (stepReset userId u).stamps ≤ 13 := by
  unfold stepReset
  split
  · exact ⟨le_refl 0, by norm_num⟩
  · exact ⟨h0, h13⟩

/-- A `WHERE id = ?` lookup commutes with a row map that keeps ids. -/
theorem find?_map_id_preserving (f : User → User) (hf : ∀ u, (f u).id = u.id)
    (l : List User) (userId : UserId) :
    (l.map f).find? (fun u => u.id == userId) =
      (l.find? (fun u => u.id == userId)).map f := by
  rw [List.find?_map]
  have hp : ((fun u => u.id == userId) ∘ f) = (fun u => u.id == userId) := by
    funext u
    simp only [Function.comp_apply, hf]
  rw [hp]

/-! ### Preservation of the stamp-count invariant (C1) -/

theorem stampInv_insertUserIfAbsent (s : Store) (userId : UserId) (hs : StampInv s) :
    StampInv (insertUserIfAbsent s userId) := by
  unfold insertUserIfAbsent
  split
  · exact hs
  · intro u hu
    rcases List.mem_append.mp hu with h | h
    · exact hs u h
    · rcases List.mem_singleton.mp h with rfl
      exact ⟨le_refl 0, by norm_num⟩

theorem stampInv_grantFallible (s : Store) (userId : UserId) (reason : String)
    (now : Nat) (selectFails : Bool) (hs : StampInv s) :
    StampInv (grantStampFallible s userId reason now selectFails).1 := by
  have h1 := stampInv_insertUserIfAbsent s userId hs
  have h2 : StampInv
      { insertUserIfAbsent s userId with
        users := (insertUserIfAbsent s userId).users.map (stepGrant userId) } := by
    intro u hu
    rcases List.mem_map.mp hu with ⟨v, hv, rfl⟩
    exact stepGrant_bounds userId v (h1 v hv).1 (h1 v hv).2
  unfold grantStampFallible
  split
  · exact h2
  · dsimp only
    split
    · exact h2
    · exact h2

theorem stampInv_grant (s : Store) (userId : UserId) (reason : String) (now : Nat)
    (hs : StampInv s) : StampInv (grantStamp s userId reason now).1 :=
  stampInv_grantFallible s userId reason now false hs

theorem stampInv_reset (s : Store) (userId : UserId) (now : Nat) (hs : StampInv s) :
    StampInv (resetStamp s userId now) := by
  unfold resetStamp
  intro u hu
  rcases List.mem_map.mp hu with ⟨v, hv, rfl⟩
  exact stepReset_bounds userId v (hs v hv).1 (hs v hv).2

theorem stampInv_applyOp (s : Store) (op : LedgerOp) (hs : StampInv s) :
    StampInv (applyOp s op) := by
  cases op with
  | grant userId now => exact stampInv_grant s userId "admin_grant" now hs
  | reset userId bodyUserId now =>
    show StampInv (apiReset s userId bodyUserId now).1
    unfold apiReset
    split
    · exact hs
    · split
      · exact hs
      · exact stampInv_reset s userId now hs

theorem stampInv_applyOps (s : Store) (ops : List LedgerOp) (hs : StampInv s) :
    StampInv (applyOps s ops) := by
  unfold applyOps
  induction ops generalizing s with
  | nil => exact hs
  | cons op rest ih => exact ih (applyOp s op) (stampInv_applyOp s op hs)

theorem getUserById_bounds (s : Store) (userId : UserId) (u : User)
    (hu : getUserById s userId = some u) : 0 ≤ u.stamps ∧ u.stamps ≤ 13 := by
  unfold getUserById at hu
  cases h : findUserRow s userId with
  | none => rw [h] at hu; cases hu
  | some v =>
    rw [h] at hu
    cases hu
    exact ⟨clampStamps_nonneg v.stamps, clampStamps_le v.stamps⟩

/-! ### The one-call shapes of grant and reset -/

theorem insertUserIfAbsent_of_found (s : Store) (userId : UserId) (u : User)
    (hu : findUserRow s userId = some u) : insertUserIfAbsent s userId = s := by
  unfold insertUserIfAbsent
  rw [hu]

theorem found_id_eq (s : Store) (userId : UserId) (u : User)
    (hu : findUserRow s userId = some u) : u.id = userId := by
  have h := List.find?_some hu
  simpa using h

theorem ite_grant_eq_min (x : Int) : (if x < 13 then x + 1 else 13) = min 13 (x + 1) := by
  split <;> omega

theorem stepGrant_of_id_eq (userId : UserId) (u : User) (h : u.id = userId) :
    stepGrant userId u = { u with stamps := min 13 (u.stamps + 1) } := by
  unfold stepGrant
  rw [if_pos (by simp [h]), ite_grant_eq_min]

theorem stepReset_of_id_eq (userId : UserId) (u : User) (h : u.id = userId) :
    stepReset userId u = { u with stamps := 0 } := by
  unfold stepReset
  rw [if_pos (by simp [h])]

theorem grantStamp_of_found (s : Store) (userId : UserId) (u : User)
    (reason : String) (now : Nat) (hu : findUserRow s userId = some u) :
    grantStamp s userId reason now =
      ({ s with users := s.users.map (stepGrant userId),
                events := s.events ++
                  [{ id := s.nextEventId, userId := userId, createdAt := now
                     reason := reason, eventType := "ADD" }],
                nextEventId := s.nextEventId + 1 },
       clampStamps (stepGrant userId u).stamps) := by
  have hfind : findUserRow { s with users := s.users.map (stepGrant userId) } userId
      = some (stepGrant userId u) := by
    unfold findUserRow at hu ⊢
    dsimp only
    rw [find?_map_id_preserving (stepGrant userId) (stepGrant_id userId), hu]
    rfl
  unfold grantStamp grantStampFallible
  rw [insertUserIfAbsent_of_found s userId u hu]
  dsimp only
  rw [hfind]
  rfl

theorem findUserRow_grantStamp (s : Store) (userId : UserId) (u : User)
    (reason : String) (now : Nat) (hu : findUserRow s userId = some u) :
    findUserRow (grantStamp s userId reason now).1 userId
      = some { u with stamps := min 13 (u.stamps + 1) } := by
  rw [grantStamp_of_found s userId u reason now hu]
  unfold findUserRow at hu ⊢
  dsimp only
  rw [find?_map_id_preserving (stepGrant userId) (stepGrant_id userId), hu]
  show some (stepGrant userId u) = some { u with stamps := min 13 (u.stamps + 1) }
  rw [stepGrant_of_id_eq userId u (found_id_eq s userId u hu)]

theorem findUserRow_resetStamp (s : Store) (userId : UserId) (u : User) (now : Nat)
    (hu : findUserRow s userId = some u) :
    findUserRow (resetStamp s userId now) userId = some { u with stamps := 0 } := by
  unfold resetStamp findUserRow
  dsimp only
  unfold findUserRow at hu
  rw [find?_map_id_preserving (stepReset userId) (stepReset_id userId), hu]
  show some (stepReset userId u) = some { u with stamps := 0 }
  rw [stepReset_of_id_eq userId u (found_id_eq s userId u hu)]

theorem apiReset_of_found (s : Store) (userId : UserId) (u : User)
    (bodyUserId : String) (now : Nat) (hu : findUserRow s userId = some u)
    (hb : bodyUserId = "" ∨ bodyUserId = userId) :
    apiReset s userId bodyUserId now = (resetStamp s userId now, .ok 0) := by
  unfold apiReset
  have hcond : ¬(bodyUserId ≠ "" ∧ bodyUserId ≠ userId) := by
    rcases hb with rfl | rfl <;> simp
  rw [if_neg hcond]
  unfold getUserById
  rw [hu]

/-! ### Claim theorems -/

/-- C1: from any store satisfying the stamp invariant (as every reachable
store does), every finite sequence of grant and reset calls keeps every
stored stamp counter in `[0, 13]` — grant never raises it above 13, reset
never drives it below 0 — and at every read boundary `getUserById` reports
a value in `[0, 13]` for any store whatsoever. -/
theorem grant_reset_stamps_in_range (s : Store) (hs : StampInv s)
    (ops : List LedgerOp) :
    StampInv (applyOps s ops) ∧
    ∀ (t : Store) (userId : UserId) (u : User),
      getUserById t userId = some u → 0 ≤ u.stamps ∧ u.stamps ≤ 13 :=
  ⟨stampInv_applyOps s ops hs, fun t userId u hu => getUserById_bounds t userId u hu⟩

theorem grant_reset_stamps_in_range_witness :
    StampInv emptyStore ∧
    (StampInv (applyOps emptyStore
        [.grant "u" 0, .grant "u" 1, .reset "u" "" 2, .grant "v" 3]) ∧
      ∀ (t : Store) (userId : UserId) (u : User),
        getUserById t userId = some u → 0 ≤ u.stamps ∧ u.stamps ≤ 13) :=
  ⟨by decide, grant_reset_stamps_in_range emptyStore (by decide)
      [.grant "u" 0, .grant "u" 1, .reset "u" "" 2, .grant "v" 3]⟩

/-- C2: for a user stored with stamp count `s`, one grant call sets the stored
count to `min 13 (s + 1)` and appends exactly one `ADD` event carrying the
supplied reason (also when the count is already 13, as the `u.stamps = 13`
instance of the statement); and 14 grants from a fresh store leave the count
at 13 with 14 `ADD` events. -/
theorem grant_min_and_one_add_event (s : Store) (userId : UserId) (u : User)
    (reason : String) (now : Nat) (hu : findUserRow s userId = some u) :
    findUserRow (grantStamp s userId reason now).1 userId
        = some { u with stamps := min 13 (u.stamps + 1) } ∧
    (grantStamp s userId reason now).1.events
        = s.events ++ [{ id := s.nextEventId, userId := userId, createdAt := now
                         reason := reason, eventType := "ADD" }] ∧
    (grantStamp s userId reason now).2
        = clampStamps (min 13 (u.stamps + 1)) ∧
    findUserRow (grantTimes 14 "u" emptyStore) "u"
        = some { id := "u", stamps := 13, isAdmin := false } ∧
    ((grantTimes 14 "u" emptyStore).events.filter
        (fun e => e.eventType == "ADD")).length = 14 := by
  refine ⟨findUserRow_grantStamp s userId u reason now hu, ?_, ?_, by decide, by decide⟩
  · rw [grantStamp_of_found s userId u reason now hu]
  · rw [grantStamp_of_found s userId u reason now hu]
    show clampStamps (stepGrant userId u).stamps = clampStamps (min 13 (u.stamps + 1))
    rw [stepGrant_of_id_eq userId u (found_id_eq s userId u hu)]

theorem grant_min_and_one_add_event_witness :
    findUserRow { emptyStore with users := [{ id := "w", stamps := 13, isAdmin := false }] } "w"
        = some { id := "w", stamps := 13, isAdmin := false } ∧
    (findUserRow (grantStamp { emptyStore with
          users := [{ id := "w", stamps := 13, isAdmin := false }] } "w" "admin_grant" 5).1 "w"
        = some { id := "w", stamps := min 13 (13 + 1), isAdmin := false } ∧
      (grantStamp { emptyStore with
          users := [{ id := "w", stamps := 13, isAdmin := false }] } "w" "admin_grant" 5).1.events
        = [] ++ [{ id := 0, userId := "w", createdAt := 5
                   reason := "admin_grant", eventType := "ADD" }] ∧
      (grantStamp { emptyStore with
          users := [{ id := "w", stamps := 13, isAdmin := false }] } "w" "admin_grant" 5).2
        = clampStamps (min 13 (13 + 1)) ∧
      findUserRow (grantTimes 14 "u" emptyStore) "u"
        = some { id := "u", stamps := 13, isAdmin := false } ∧
      ((grantTimes 14 "u" emptyStore).events.filter
        (fun e => e.eventType == "ADD")).length = 14) :=
  ⟨by decide, grant_min_and_one_add_event
      { emptyStore with users := [{ id := "w", stamps := 13, isAdmin := false }] }
      "w" { id := "w", stamps := 13, isAdmin := false } "admin_grant" 5 (by decide)⟩

/-- C4: for any stored user, a reset call (with the body user id absent or
matching the session user) sets the stored count to exactly 0 and appends
exactly one `RESET` event with reason `user_reset`, also when the count is
already 0. -/
theorem reset_zero_and_one_reset_event (s : Store) (userId : UserId) (u : User)
    (bodyUserId : String) (now : Nat) (hu : findUserRow s userId = some u)
    (hb : bodyUserId = "" ∨ bodyUserId = userId) :
    apiReset s userId bodyUserId now = (resetStamp s userId now, .ok 0) ∧
    findUserRow (resetStamp s userId now) userId = some { u with stamps := 0 } ∧
    (resetStamp s userId now).events
      = s.events ++ [{ id := s.nextEventId, userId := userId, createdAt := now
                       reason := "user_reset", eventType := "RESET" }] :=
  ⟨apiReset_of_found s userId u bodyUserId now hu hb,
   findUserRow_resetStamp s userId u now hu, rfl⟩

theorem reset_zero_and_one_reset_event_witness :
    findUserRow { emptyStore with users := [{ id := "w", stamps := 0, isAdmin := false }] } "w"
        = some { id := "w", stamps := 0, isAdmin := false } ∧
    ("" = "" ∨ ("" : String) = "w") ∧
    (apiReset { emptyStore with users := [{ id := "w", stamps := 0, isAdmin := false }] } "w" "" 4
        = (resetStamp { emptyStore with
            users := [{ id := "w", stamps := 0, isAdmin := false }] } "w" 4, .ok 0) ∧
      findUserRow (resetStamp { emptyStore with
            users := [{ id := "w", stamps := 0, isAdmin := false }] } "w" 4) "w"
        = some { id := "w", stamps := 0, isAdmin := false } ∧
      (resetStamp { emptyStore with
            users := [{ id := "w", stamps := 0, isAdmin := false }] } "w" 4).events
        = [] ++ [{ id := 0, userId := "w", createdAt := 4
                   reason := "user_reset", eventType := "RESET" }]) :=
  ⟨by decide, Or.inl rfl,
   reset_zero_and_one_reset_event
      { emptyStore with users := [{ id := "w", stamps := 0, isAdmin := false }] }
      "w" { id := "w", stamps := 0, isAdmin := false } "" 4 (by decide) (Or.inl rfl)⟩

/-- C9: with a configured admin token, a wrong supplied token answers 401 and
an empty target user id answers 400, in both cases leaving the store
untouched; on success the call is exactly the ledger grant with reason
`admin_grant`. -/
theorem admin_stamp_guards (adminToken suppliedToken : String) (s : Store)
    (userId : String) (now : Nat) (hcfg : adminToken ≠ "") :
    (suppliedToken ≠ adminToken →
      apiAdminStamp adminToken suppliedToken s userId now = (s, .unauthorized)) ∧
    (suppliedToken = adminToken → userId = "" →
      apiAdminStamp adminToken suppliedToken s userId now = (s, .badRequest)) ∧
    (suppliedToken = adminToken → userId ≠ "" →
      apiAdminStamp adminToken suppliedToken s userId now =
        ((grantStamp s userId "admin_grant" now).1,
         .ok (grantStamp s userId "admin_grant" now).2)) := by
  refine ⟨?_, ?_, ?_⟩
  · intro htok
    unfold apiAdminStamp
    rw [if_neg hcfg, if_pos htok]
  · intro htok hid
    unfold apiAdminStamp
    rw [if_neg hcfg, if_neg (by simp [htok]), if_pos hid]
  · intro htok hid
    unfold apiAdminStamp
    rw [if_neg hcfg, if_neg (by simp [htok]), if_neg hid]

theorem admin_stamp_guards_witness :
    ("secret" : String) ≠ "" ∧
    (("wrong" : String) ≠ "secret" →
      apiAdminStamp "secret" "wrong" emptyStore "u1" 0 = (emptyStore, .unauthorized)) ∧
    (("wrong" : String) = "secret" → ("u1" : String) = "" →
      apiAdminStamp "secret" "wrong" emptyStore "u1" 0 = (emptyStore, .badRequest)) ∧
    (("wrong" : String) = "secret" → ("u1" : String) ≠ "" →
      apiAdminStamp "secret" "wrong" emptyStore "u1" 0 =
        ((grantStamp emptyStore "u1" "admin_grant" 0).1,
         .ok (grantStamp emptyStore "u1" "admin_grant" 0).2)) :=
  ⟨by decide, admin_stamp_guards "secret" "wrong" emptyStore "u1" 0 (by decide)⟩

/-- C10: with the admin token unconfigured (empty), every admin-stamp call
answers the configuration error before any token comparison or ledger
mutation — in particular an empty supplied token is never authorized and the
store is unchanged. -/
theorem admin_stamp_unconfigured (suppliedToken : String) (s : Store)
    (userId : String) (now : Nat) :
    apiAdminStamp "" suppliedToken s userId now = (s, .configError) := by
  unfold apiAdminStamp
  rw [if_pos rfl]

/-- C3 fails on the code: `db.serialize` is not a transaction. When the
`db.get` read-back between the counter `UPDATE` and the event `INSERT` errors,
the handler reports failure with the counter already incremented (3 → 4) and
no event inserted — a partial application the claim rules out. -/
theorem grant_partial_application_on_select_failure :
    (grantStampFallible
        { emptyStore with users := [{ id := "u1", stamps := 3, isAdmin := false }] }
        "u1" "admin_grant" 7 true).2.2 = false ∧
    findUserRow (grantStampFallible
        { emptyStore with users := [{ id := "u1", stamps := 3, isAdmin := false }] }
        "u1" "admin_grant" 7 true).1 "u1"
      = some { id := "u1", stamps := 4, isAdmin := false } ∧
    (grantStampFallible
        { emptyStore with users := [{ id := "u1", stamps := 3, isAdmin := false }] }
        "u1" "admin_grant" 7 true).1.events = [] := by
  decide

/-- C8 as stated fails on the code: the mail-immutability check only fires
when both the stored and the supplied mail are non-empty.  A profile stored
with an empty mail (as Google signup creates when the OAuth payload carries
no email) accepts any differing mail, and a whitespace-only supplied mail
differing from a non-empty stored one is accepted as well — both answer
`ok`, not the mail-immutable error. -/
theorem updateProfile_mail_check_gaps :
    (apiUpdateProfile { emptyStore with
        users := [{ id := "u1", stamps := 0, isAdmin := false }],
        profiles := [{ userId := "u1", username := "Alice", mailAddress := ""
                       description := "", job := "", hobbies := "", updatedAt := 0 }] }
      "u1" "Alice" "x@y.com" "" "" "" 1).2 = .ok ∧
    normalizeMail "x@y.com" ≠ normalizeMail "" ∧
    (apiUpdateProfile { emptyStore with
        users := [{ id := "u1", stamps := 0, isAdmin := false }],
        profiles := [{ userId := "u1", username := "Alice", mailAddress := "a@b.com"
                       description := "", job := "", hobbies := "", updatedAt := 0 }] }
      "u1" "Alice" " " "" "" "" 1).2 = .ok ∧
    normalizeMail " " ≠ normalizeMail "a@b.com" := by
  decide

/-- C8 (amended): `updateProfile` with a username empty after trimming fails
the validation error and leaves the store unchanged; and for a user whose
profile exists with a non-empty stored mail, supplying a mail that is
non-empty after normalization and differs case-insensitively from the stored
one fails the mail-immutable error and leaves the store unchanged. -/
theorem updateProfile_validation_and_mail_immutable (s : Store)
    (sessionUserId : UserId)
    (usernameInput mailInput description job hobbies : String) (now : Nat) :
    (normalizeUsername usernameInput = "" →
      apiUpdateProfile s sessionUserId usernameInput mailInput description job hobbies now
        = (s, .validationError)) ∧
    (∀ p : Profile, getProfileByUserId s sessionUserId = some p →
      normalizeUsername usernameInput ≠ "" →
      p.mailAddress ≠ "" →
      normalizeMail mailInput ≠ "" →
      normalizeMail p.mailAddress ≠ normalizeMail mailInput →
      apiUpdateProfile s sessionUserId usernameInput mailInput description job hobbies now
        = (s, .mailImmutable)) := by
  constructor
  · intro h
    unfold apiUpdateProfile
    dsimp only
    rw [if_pos h]
  · intro p hp hun hpm hmi hne
    unfold apiUpdateProfile
    dsimp only
    rw [if_neg hun, hp]
    dsimp only
    rw [if_pos ⟨hpm, hmi, hne⟩]

theorem updateProfile_validation_and_mail_immutable_witness :
    normalizeUsername "  " = "" ∧
    apiUpdateProfile { emptyStore with
        profiles := [{ userId := "u1", username := "Alice", mailAddress := "a@b.com"
                       description := "", job := "", hobbies := "", updatedAt := 0 }] }
      "u1" "  " "a@b.com" "d" "j" "h" 2
      = ({ emptyStore with
            profiles := [{ userId := "u1", username := "Alice", mailAddress := "a@b.com"
                           description := "", job := "", hobbies := "", updatedAt := 0 }] },
         .validationError) ∧
    apiUpdateProfile { emptyStore with
        profiles := [{ userId := "u1", username := "Alice", mailAddress := "a@b.com"
                       description := "", job := "", hobbies := "", updatedAt := 0 }] }
      "u1" "Alice" "B@c.com" "d" "j" "h" 2
      = ({ emptyStore with
            profiles := [{ userId := "u1", username := "Alice", mailAddress := "a@b.com"
                           description := "", job := "", hobbies := "", updatedAt := 0 }] },
         .mailImmutable) :=
  ⟨by decide,
   (updateProfile_validation_and_mail_immutable _ "u1" "  " "a@b.com" "d" "j" "h" 2).1
     (by decide),
   (updateProfile_validation_and_mail_immutable _ "u1" "Alice" "B@c.com" "d" "j" "h" 2).2
     { userId := "u1", username := "Alice", mailAddress := "a@b.com"
       description := "", job := "", hobbies := "", updatedAt := 0 }
     (by decide) (by decide) (by decide) (by decide) (by decide)⟩

/-- After a successful signup, the local identity for the normalized mail is
the one just inserted. -/
theorem getAuthIdentity_after_signup (s : Store)
    (usernameInput mailInput description job hobbies : String)
    (freshId : UserId) (now : Nat)
    (hun : normalizeUsername usernameInput ≠ "")
    (hm : normalizeMail mailInput ≠ "")
    (hnone : getAuthIdentity s "local" (normalizeMail mailInput) = none) :
    getAuthIdentity (apiSignup s usernameInput mailInput description job hobbies freshId now).1
        "local" (normalizeMail mailInput)
      = some { id := s.nextIdentityId, userId := freshId, provider := "local"
               providerKey := normalizeMail mailInput, createdAt := now } := by
  unfold apiSignup
  dsimp only
  rw [if_neg (not_or.mpr ⟨hun, hm⟩), hnone]
  unfold getAuthIdentity at hnone ⊢
  dsimp only
  rw [List.find?_append, hnone]
  simp [List.find?]

/-- C6: with the required fields present, signup answers `Conflict` and leaves
the store untouched whenever a local identity already exists for the
normalized (trimmed, lowercased) mail; otherwise one call creates the user
row, the profile row and the `local` identity keyed by the normalized mail
and returns the fresh id — and any further signup with the same normalized
mail then fails `Conflict` without changing the store, so of two such calls
exactly one succeeds. -/
theorem signup_conflict_or_create (s : Store)
    (usernameInput mailInput description job hobbies : String)
    (freshId : UserId) (now : Nat)
    (hun : normalizeUsername usernameInput ≠ "")
    (hm : normalizeMail mailInput ≠ "") :
    (∀ i : AuthIdentity,
      getAuthIdentity s "local" (normalizeMail mailInput) = some i →
      apiSignup s usernameInput mailInput description job hobbies freshId now
        = (s, .conflict)) ∧
    (getAuthIdentity s "local" (normalizeMail mailInput) = none →
      apiSignup s usernameInput mailInput description job hobbies freshId now
        = ({ s with
              users := s.users ++ [{ id := freshId, stamps := 0, isAdmin := false }],
              profiles := s.profiles ++
                [{ userId := freshId, username := normalizeUsername usernameInput
                   mailAddress := normalizeMail mailInput, description := description
                   job := job, hobbies := hobbies, updatedAt := now }],
              identities := s.identities ++
                [{ id := s.nextIdentityId, userId := freshId, provider := "local"
                   providerKey := normalizeMail mailInput, createdAt := now }],
              nextIdentityId := s.nextIdentityId + 1 },
           .ok freshId) ∧
      ∀ (un2 m2 d2 j2 h2 : String) (fid2 : UserId) (now2 : Nat),
        normalizeUsername un2 ≠ "" →
        normalizeMail m2 = normalizeMail mailInput →
        apiSignup (apiSignup s usernameInput mailInput description job hobbies freshId now).1
            un2 m2 d2 j2 h2 fid2 now2
          = ((apiSignup s usernameInput mailInput description job hobbies freshId now).1,
             .conflict)) := by
  constructor
  · intro i hi
    unfold apiSignup
    dsimp only
    rw [if_neg (not_or.mpr ⟨hun, hm⟩), hi]
  · intro hnone
    constructor
    · unfold apiSignup
      dsimp only
      rw [if_neg (not_or.mpr ⟨hun, hm⟩), hnone]
    · intro un2 m2 d2 j2 h2 fid2 now2 hun2 hm2
      have hid := getAuthIdentity_after_signup s usernameInput mailInput description
        job hobbies freshId now hun hm hnone
      have hm2' : normalizeMail m2 ≠ "" := by rw [hm2]; exact hm
      generalize hT : (apiSignup s usernameInput mailInput description job hobbies
        freshId now).1 = T at hid ⊢
      unfold apiSignup
      dsimp only
      rw [if_neg (not_or.mpr ⟨hun2, hm2'⟩), hm2, hid]

theorem signup_conflict_or_create_witness :
    normalizeUsername "Alice" ≠ "" ∧
    normalizeMail "A@B.com" ≠ "" ∧
    getAuthIdentity emptyStore "local" (normalizeMail "A@B.com") = none ∧
    apiSignup (apiSignup emptyStore "Alice" "A@B.com" "" "" "" "u1" 0).1
        "Bob" "a@b.COM" "" "" "" "u2" 1
      = ((apiSignup emptyStore "Alice" "A@B.com" "" "" "" "u1" 0).1, .conflict) :=
  ⟨by decide, by decide, by decide,
   ((signup_conflict_or_create emptyStore "Alice" "A@B.com" "" "" "" "u1" 0
        (by decide) (by decide)).2 (by decide)).2
     "Bob" "a@b.COM" "" "" "" "u2" 1 (by decide) (by decide)⟩

/-- C7: login resolves the local identity by the normalized (case-folded)
mail — absent identity answers `not_found`; with an identity and a stored
profile, a normalized-username mismatch answers `username_mismatch` and a
match logs the mapped user in; concretely, after signup with `A@B.com` the
same username logs in with `a@b.com` and a different one is rejected as a
username mismatch. -/
theorem login_resolution (s : Store) (usernameInput mailInput : String) :
    (getAuthIdentity s "local" (normalizeMail mailInput) = none →
      apiLogin s usernameInput mailInput = .notFound) ∧
    (∀ (i : AuthIdentity) (p : Profile),
      normalizeUsername usernameInput ≠ "" →
      normalizeMail mailInput ≠ "" →
      getAuthIdentity s "local" (normalizeMail mailInput) = some i →
      getProfileByUserId s i.userId = some p →
      (normalizeUsername p.username ≠ normalizeUsername usernameInput →
        apiLogin s usernameInput mailInput = .usernameMismatch) ∧
      (normalizeUsername p.username = normalizeUsername usernameInput →
        apiLogin s usernameInput mailInput = .ok i.userId)) ∧
    apiLogin (apiSignup emptyStore "法然" "A@B.com" "" "" "" "u1" 0).1 "法然" "a@b.com"
      = .ok "u1" ∧
    apiLogin (apiSignup emptyStore "法然" "A@B.com" "" "" "" "u1" 0).1 "Other" "a@b.com"
      = .usernameMismatch := by
  refine ⟨?_, ?_, by decide, by decide⟩
  · intro hnone
    unfold apiLogin
    dsimp only
    split
    · rfl
    · rw [hnone]
  · intro i p hun hm hi hp
    constructor
    · intro hneq
      unfold apiLogin
      dsimp only
      rw [if_neg (not_or.mpr ⟨hun, hm⟩), hi]
      dsimp only
      rw [hp]
      dsimp only
      rw [if_pos hneq]
    · intro heq
      unfold apiLogin
      dsimp only
      rw [if_neg (not_or.mpr ⟨hun, hm⟩), hi]
      dsimp only
      rw [hp]
      dsimp only
      rw [if_neg (not_not_intro heq)]

theorem login_resolution_witness :
    getAuthIdentity emptyStore "local" (normalizeMail "x@y.com") = none ∧
    apiLogin emptyStore "A" "x@y.com" = .notFound :=
  ⟨by decide, (login_resolution emptyStore "A" "x@y.com").1 (by decide)⟩

/-! ### Ordering of the recent-events query (C5) -/

/-- Two events for user `u` inserted with the same `createdAt` (a reachable
log: two admin grants within the same millisecond). -/
def tieStore : Store :=
  { emptyStore with
      events := [{ id := 0, userId := "u", createdAt := 9, reason := "admin_grant", eventType := "ADD" },
                 { id := 1, userId := "u", createdAt := 9, reason := "admin_grant", eventType := "ADD" }],
      nextEventId := 2 }

/-- C5 as stated fails on the code: the query is `ORDER BY createdAt DESC`
with no secondary sort key, so on a log with a `createdAt` tie both relative
orders of the tied events are admissible results of the same query — the
result order on ties is not a function of the sequence ids, hence no
insertion-order tie-break is guaranteed. -/
theorem recentEvents_tie_order_unspecified :
    IsRecentEventsResult tieStore "u" 3
      [{ id := 0, userId := "u", createdAt := 9, reason := "admin_grant", eventType := "ADD" },
       { id := 1, userId := "u", createdAt := 9, reason := "admin_grant", eventType := "ADD" }] ∧
    IsRecentEventsResult tieStore "u" 3
      [{ id := 1, userId := "u", createdAt := 9, reason := "admin_grant", eventType := "ADD" },
       { id := 0, userId := "u", createdAt := 9, reason := "admin_grant", eventType := "ADD" }] :=
  ⟨⟨[{ id := 0, userId := "u", createdAt := 9, reason := "admin_grant", eventType := "ADD" },
     { id := 1, userId := "u", createdAt := 9, reason := "admin_grant", eventType := "ADD" }],
    by decide, by decide, by decide⟩,
   ⟨[{ id := 1, userId := "u", createdAt := 9, reason := "admin_grant", eventType := "ADD" },
     { id := 0, userId := "u", createdAt := 9, reason := "admin_grant", eventType := "ADD" }],
    by decide, by decide, by decide⟩⟩

/-- C5 (amended): every admissible result of `recentEvents(userId, 3)` has at
most 3 events, all owned by that user, in (non-strictly) descending
`createdAt` order; the relative order of events with equal `createdAt` is
not specified by the query. -/
theorem recentEvents_ordered_desc (s : Store) (userId : UserId)
    (res : List StampEvent) (h : IsRecentEventsResult s userId 3 res) :
    res.length ≤ 3 ∧
    (∀ e ∈ res, e.userId = userId) ∧
    res.Pairwise (fun a b => b.createdAt ≤ a.createdAt) := by
  obtain ⟨arranged, hperm, hsort, rfl⟩ := h
  refine ⟨?_, ?_, ?_⟩
  · rw [List.length_take]
    exact min_le_left _ _
  · intro e he
    have h1 := List.mem_of_mem_take he
    have h2 := hperm.mem_iff.mp h1
    have h3 := List.mem_filter.mp h2
    simpa using h3.2
  · exact List.Pairwise.sublist (List.take_sublist 3 _) hsort

theorem recentEvents_ordered_desc_witness :
    IsRecentEventsResult tieStore "u" 3
      [{ id := 1, userId := "u", createdAt := 9, reason := "admin_grant", eventType := "ADD" },
       { id := 0, userId := "u", createdAt := 9, reason := "admin_grant", eventType := "ADD" }] ∧
    (([{ id := 1, userId := "u", createdAt := 9, reason := "admin_grant", eventType := "ADD" },
       { id := 0, userId := "u", createdAt := 9, reason := "admin_grant", eventType := "ADD" }] : List StampEvent).length ≤ 3 ∧
     (∀ e ∈ ([{ id := 1, userId := "u", createdAt := 9, reason := "admin_grant", eventType := "ADD" },
              { id := 0, userId := "u", createdAt := 9, reason := "admin_grant", eventType := "ADD" }] : List StampEvent),
        e.userId = "u") ∧
     ([{ id := 1, userId := "u", createdAt := 9, reason := "admin_grant", eventType := "ADD" },
       { id := 0, userId := "u", createdAt := 9, reason := "admin_grant", eventType := "ADD" }] : List StampEvent).Pairwise
        (fun a b => b.createdAt ≤ a.createdAt)) :=
  ⟨⟨[{ id := 1, userId := "u", createdAt := 9, reason := "admin_grant", eventType := "ADD" },
     { id := 0, userId := "u", createdAt := 9, reason := "admin_grant", eventType := "ADD" }],
    by decide, by decide, by decide⟩,
   recentEvents_ordered_desc tieStore "u"
     [{ id := 1, userId := "u", createdAt := 9, reason := "admin_grant", eventType := "ADD" },
      { id := 0, userId := "u", createdAt := 9, reason := "admin_grant", eventType := "ADD" }]
     ⟨[{ id := 1, userId := "u", createdAt := 9, reason := "admin_grant", eventType := "ADD" },
       { id := 0, userId := "u", createdAt := 9, reason := "admin_grant", eventType := "ADD" }],
      by decide, by decide, by decide⟩⟩


end StampApp
